import Mathlib

/-!
Verification of the closed-loop fan speed controller in
`modules/fan_control/fan_control.c` (with its TIM2 configuration from
`modules/my_timer/my_timer.c`).

Shallow embedding conventions:
* `uint32_t` values are natural numbers; every C operation that can wrap is
  followed by `% U32` exactly where the C arithmetic wraps.  The conversion
  `(int32_t)` of a `uint32_t` is `toInt32` (twos-complement reinterpretation).
* `int32_t` accumulation (`errorSum`) is modelled on `ℤ`; signed overflow is
  undefined behaviour in C and is not modelled.
* `float` values are modelled as exact rationals (`ℚ`).  The gains are the
  literal decimal constants of the source.  Every claim settled below is
  decided far away from any rounding boundary, so the idealisation does not
  affect any verdict.
* Division by zero: the `Nat` division of Lean returns 0, which matches the
  behaviour of the Cortex-M `udiv` instruction (the C expression is undefined
  behaviour; the model shows what the generated code does on the target).
* The TIM2 counter (10 kHz, ARR = 9999) counts modulo `TIM2_MODULUS = 10000`
  and is advanced only while running.  `HAL_TIM_Base_Init` leaves the counter
  at 0 and stopped.
-/

namespace FanControl

/-- The modulus of `uint32_t` arithmetic, 2^32. -/
def U32 : ℕ := 2 ^ 32

/-- Macro `MAX_PWM 199` (fan_control.c line 96). -/
def MAX_PWM : ℕ := 199

/-- Macro `MIN_PWM 15` (fan_control.c line 97). -/
def MIN_PWM : ℕ := 15

/-- Module variable `volatile uint32_t frequency = 10000;`, the TIM2 tick frequency in Hz.
It is never written anywhere in the repository. -/
def frequency : ℕ := 10000

/-- TIM2 is configured by `my_timer_init(TIMER_INSTANCE_2, TIMER_MODE_BASE,
10000, 10000)`: `Init.Period = 10000 - 1`, so the counter counts 0..9999 and
wraps modulo 10000. -/
def TIM2_MODULUS : ℕ := 10000

/-- Gain `volatile float Kp = 0.98;` modelled as the exact rational. -/
def Kp : ℚ := 98 / 100

/-- Gain `volatile float Ki = 2.1;` modelled as the exact rational. -/
def Ki : ℚ := 21 / 10

/-- Twos-complement reinterpretation of a `uint32_t` value as `int32_t`,
the effect of the C conversion in `int32_t error = targetRPM - actualRPM`. -/
def toInt32 (n : ℕ) : ℤ :=
  if n % U32 < 2 ^ 31 then ((n % U32 : ℕ) : ℤ) else ((n % U32 : ℕ) : ℤ) - (U32 : ℤ)

/-- Wrapping `uint32_t` subtraction `a - b` (modulo 2^32). -/
def u32_sub (a b : ℕ) : ℕ := (a % U32 + (U32 - b % U32)) % U32

/-- The C conversion of a `float` to `uint32_t` (truncation toward zero;
undefined for negative values — the regulator only converts clamped,
non-negative outputs).  This is what `__HAL_TIM_SET_COMPARE` receives. -/
def floatToU32 (q : ℚ) : ℕ := (Int.toNat ⌊q⌋) % U32

/-- The module state: the `volatile` globals of fan_control.c together with
the two hardware registers the module drives (TIM3 CCR2 = PWM compare value,
TIM2 counter) and the TIM2 run bit. -/
structure State where
  fan_control_time_interval : ℕ
  fan_start_flag : Bool
  fan_control_actual_RPM : ℕ
  targetRPM : ℕ
  fan_control_poti_val : ℕ
  errorSum : ℤ
  output : ℚ
  tim3_compare : ℕ
  tim2_counter : ℕ
  tim2_running : Bool
  deriving Repr, DecidableEq

/-- fan_control.c line 376:
`fan_control_actual_RPM = (frequency / (fan_control_time_interval * 2)) * 60;`
— all operations in `uint32_t`. -/
def measuredSpeed (interval : ℕ) : ℕ :=
  ((frequency / ((interval * 2) % U32)) * 60) % U32

/-- fan_control.c line 385: `int32_t error = targetRPM - fan_control_actual_RPM;`
— `uint32_t` subtraction, then conversion to `int32_t`. -/
def regError (target actual : ℕ) : ℤ := toInt32 (u32_sub target actual)

/-- fan_control.c line 387: `float Ta = fan_control_time_interval / frequency;`
— an unsigned INTEGER division whose (truncated) quotient is then converted
to `float`. -/
def Ta (interval : ℕ) : ℚ := ((interval / frequency : ℕ) : ℚ)

/-- The control error of the tick that `regulateFanSpeed` would run on
state `s` (a local variable in the C code). -/
def tickError (s : State) : ℤ :=
  regError s.targetRPM (measuredSpeed s.fan_control_time_interval)

/-- Value of `errorSum` right after the accumulation `errorSum = errorSum + error;`
(fan_control.c line 388). -/
def tickErrorSum (s : State) : ℤ := s.errorSum + tickError s

/-- fan_control.c line 389, the pre-clamp controller output:
`output = Kp * error + Ki * errorSum * Ta;` (with the already-updated
`errorSum`). -/
def preOutput (s : State) : ℚ :=
  Kp * (tickError s : ℚ) + Ki * (tickErrorSum s : ℚ) * Ta s.fan_control_time_interval

/-- The saturation condition of fan_control.c lines 397/400: the emitted
output is clamped (to `MAX_PWM` or to `MIN_PWM`). -/
def clamped (s : State) : Prop :=
  (MAX_PWM : ℚ) < preOutput s ∨ preOutput s < (MIN_PWM : ℚ)

instance (s : State) : Decidable (clamped s) := by
  unfold clamped; infer_instance

/-- Embedding of `static void regulateFanSpeed()` (fan_control.c lines 369-409): speed
computation, PI law, saturation with anti-windup, and the
`__HAL_TIM_SET_COMPARE(..., output)` actuation write. -/
def regulateFanSpeed (s : State) : State :=
  let actualRPM := measuredSpeed s.fan_control_time_interval
  let error := tickError s
  let errorSum1 := s.errorSum + error
  let out := preOutput s
  if (MAX_PWM : ℚ) < out then
    { s with fan_control_actual_RPM := actualRPM, errorSum := errorSum1 - error,
             output := (MAX_PWM : ℚ), tim3_compare := floatToU32 (MAX_PWM : ℚ) }
  else if out < (MIN_PWM : ℚ) then
    { s with fan_control_actual_RPM := actualRPM, errorSum := errorSum1 - error,
             output := (MIN_PWM : ℚ), tim3_compare := floatToU32 (MIN_PWM : ℚ) }
  else
    { s with fan_control_actual_RPM := actualRPM, errorSum := errorSum1,
             output := out, tim3_compare := floatToU32 out }

/-- Advance of the free-running TIM2 counter by `elapsed` hardware ticks:
it counts (modulo 10000) only while started. -/
def timerAdvance (s : State) (elapsed : ℕ) : State :=
  if s.tim2_running then
    { s with tim2_counter := (s.tim2_counter + elapsed) % TIM2_MODULUS }
  else s

/-- Embedding of `HAL_GPIO_EXTI_Callback` for `GPIO_PIN_1` (fan_control.c lines 330-354),
one tachometer edge.  `elapsed` is the number of TIM2 ticks since the
previous edge (environment input).  Returns the new state and whether this
edge completed a measurement and invoked the regulator. -/
def onEdge (s : State) (elapsed : ℕ) : State × Bool :=
  let s0 := timerAdvance s elapsed
  if s0.fan_start_flag = false then
    ({ s0 with tim2_running := true, fan_start_flag := true }, false)
  else
    let s1 := { s0 with tim2_running := false,
                        fan_control_time_interval := s0.tim2_counter }
    let s2 := regulateFanSpeed s1
    ({ s2 with tim2_counter := 0, fan_start_flag := false }, true)

/-- Process a list of edge events (each with its elapsed TIM2 ticks),
counting how many of them invoked the regulator. -/
def runEdges (s : State) (es : List ℕ) : State × ℕ :=
  match es with
  | [] => (s, 0)
  | e :: rest =>
    let r := onEdge s e
    let t := runEdges r.1 rest
    (t.1, (if r.2 then 1 else 0) + t.2)

/-- State after `fan_control_init()`: all module globals are
zero-initialised, TIM2 is initialised but not started (counter 0), and
`fan_control_timer_3_init` configures the PWM channel with
`fan_control_tim_oc_handle_struct.Pulse = 0;` and starts it, so the compare
register holds 0. -/
def initState : State :=
  { fan_control_time_interval := 0
    fan_start_flag := false
    fan_control_actual_RPM := 0
    targetRPM := 0
    fan_control_poti_val := 0
    errorSum := 0
    output := 0
    tim3_compare := 0
    tim2_counter := 0
    tim2_running := false }

/-- Embedding of `void fan_control_set_rpm()` (fan_control.c lines 190-197) with the
potentiometer average `avg` read by `potis_dma_get_avg(POTIS_DMA_1)`:
`fan_control_poti_val = (avg * 4500) / 4095; targetRPM = fan_control_poti_val;`
— `uint32_t` multiplication (wrapping) then `uint32_t` division. -/
def fan_control_set_rpm (s : State) (avg : ℕ) : State :=
  let v := ((avg * 4500) % U32) / 4095
  { s with fan_control_poti_val := v, targetRPM := v }

/-- Modelled from the spec (refinement comparison only): §4.2 step 4 demands
`samplingPeriod = interval / tickFrequency` as a real-valued (floating-point)
quotient, e.g. `0.01` for `interval = 100`, `tickFrequency = 10000`. -/
def spec_samplingPeriod (interval : ℕ) : ℚ := (interval : ℚ) / (frequency : ℚ)

/-- Modelled from the spec (refinement comparison only): the pre-clamp output
of §4.2 step 6 with the real-valued sampling period of step 4. -/
def spec_preOutput (s : State) : ℚ :=
  Kp * (tickError s : ℚ) + Ki * (tickErrorSum s : ℚ)
    * spec_samplingPeriod s.fan_control_time_interval


@[simp] lemma timerAdvance_fan_start_flag (s : State) (e : ℕ) :
    (timerAdvance s e).fan_start_flag = s.fan_start_flag := by
  unfold timerAdvance; split_ifs <;> rfl

@[simp] lemma timerAdvance_errorSum (s : State) (e : ℕ) :
    (timerAdvance s e).errorSum = s.errorSum := by
  unfold timerAdvance; split_ifs <;> rfl

@[simp] lemma timerAdvance_tim3_compare (s : State) (e : ℕ) :
    (timerAdvance s e).tim3_compare = s.tim3_compare := by
  unfold timerAdvance; split_ifs <;> rfl

@[simp] lemma regulateFanSpeed_fan_start_flag (s : State) :
    (regulateFanSpeed s).fan_start_flag = s.fan_start_flag := by
  simp only [regulateFanSpeed]; split_ifs <;> rfl

@[simp] lemma regulateFanSpeed_tim2_running (s : State) :
    (regulateFanSpeed s).tim2_running = s.tim2_running := by
  simp only [regulateFanSpeed]; split_ifs <;> rfl

lemma onEdge_snd (s : State) (e : ℕ) : (onEdge s e).2 = s.fan_start_flag := by
  unfold onEdge
  by_cases hf : s.fan_start_flag <;> simp [hf]

lemma onEdge_flag (s : State) (e : ℕ) :
    (onEdge s e).1.fan_start_flag = !s.fan_start_flag := by
  unfold onEdge
  by_cases hf : s.fan_start_flag <;> simp [hf]

lemma runEdges_flag (es : List ℕ) (s : State) :
    (runEdges s es).1.fan_start_flag =
      (if es.length % 2 = 1 then !s.fan_start_flag else s.fan_start_flag) := by
  induction es generalizing s with
  | nil => simp [runEdges]
  | cons e rest ih =>
    simp only [runEdges, List.length_cons]
    rw [ih, onEdge_flag]
    by_cases hp : rest.length % 2 = 1
    · have hp2 : ¬ ((rest.length + 1) % 2 = 1) := by omega
      simp [hp, hp2]
    · have hp2 : (rest.length + 1) % 2 = 1 := by omega
      simp [hp, hp2]

lemma runEdges_count (es : List ℕ) (s : State) :
    (runEdges s es).2 = (es.length + (if s.fan_start_flag then 1 else 0)) / 2 := by
  induction es generalizing s with
  | nil => cases s.fan_start_flag <;> simp [runEdges]
  | cons e rest ih =>
    simp only [runEdges, List.length_cons]
    rw [ih, onEdge_flag, onEdge_snd]
    cases hf : s.fan_start_flag
    · simp
    · simp
      omega

lemma floatToU32_bounds {q : ℚ} (h1 : (15 : ℚ) ≤ q) (h2 : q ≤ (199 : ℚ)) :
    15 ≤ floatToU32 q ∧ floatToU32 q ≤ 199 := by
  have hf15 : (15 : ℤ) ≤ ⌊q⌋ := Int.le_floor.mpr (by exact_mod_cast h1)
  have hq199 : (⌊q⌋ : ℚ) ≤ 199 := le_trans (Int.floor_le q) h2
  have hf199 : ⌊q⌋ ≤ 199 := by exact_mod_cast hq199
  have h0 : (0 : ℤ) ≤ ⌊q⌋ := le_trans (by norm_num) hf15
  have hub : ⌊q⌋.toNat ≤ 199 := Int.toNat_le.mpr hf199
  have hlb : 15 ≤ ⌊q⌋.toNat := (Int.le_toNat h0).mpr (by exact_mod_cast hf15)
  have hmod : ⌊q⌋.toNat % U32 = ⌊q⌋.toNat :=
    Nat.mod_eq_of_lt (lt_of_le_of_lt hub (by norm_num [U32]))
  unfold floatToU32
  rw [hmod]
  exact ⟨hlb, hub⟩

lemma regulateFanSpeed_bounds (s : State) :
    (MIN_PWM : ℚ) ≤ (regulateFanSpeed s).output ∧
    (regulateFanSpeed s).output ≤ (MAX_PWM : ℚ) ∧
    MIN_PWM ≤ (regulateFanSpeed s).tim3_compare ∧
    (regulateFanSpeed s).tim3_compare ≤ MAX_PWM := by
  simp only [regulateFanSpeed]
  split_ifs with h1 h2
  · have hb := floatToU32_bounds (q := (MAX_PWM : ℚ)) (by norm_num [MAX_PWM]) (by norm_num [MAX_PWM])
    exact ⟨by norm_num [MIN_PWM, MAX_PWM], le_refl _,
      by simpa [MIN_PWM] using hb.1, by simpa [MAX_PWM] using hb.2⟩
  · have hb := floatToU32_bounds (q := (MIN_PWM : ℚ)) (by norm_num [MIN_PWM]) (by norm_num [MIN_PWM])
    exact ⟨le_refl _, by norm_num [MIN_PWM, MAX_PWM],
      by simpa [MIN_PWM] using hb.1, by simpa [MAX_PWM] using hb.2⟩
  · push_neg at h1 h2
    have hlo : (15 : ℚ) ≤ preOutput s := by simpa [MIN_PWM] using h2
    have hhi : preOutput s ≤ (199 : ℚ) := by simpa [MAX_PWM] using h1
    have hb := floatToU32_bounds hlo hhi
    exact ⟨by simpa [MIN_PWM] using hlo, by simpa [MAX_PWM] using hhi,
      by simpa [MIN_PWM] using hb.1, by simpa [MAX_PWM] using hb.2⟩


/-! Concrete states used by the claim theorems and witnesses below. -/

/-- A tick state with interval 100 and target 6000 RPM: the measured speed is
3000 RPM, the control error 3000, and the tick saturates at `MAX_PWM`. -/
def windupState : State :=
  { initState with fan_control_time_interval := 100, targetRPM := 6000 }

/-- The degenerate-interval state: `fan_control_time_interval = 0` with
target 3000 RPM (e.g. the fan stalled between two spurious edges). -/
def degenState : State := { initState with targetRPM := 3000 }

/-- The state of end-to-end scenario 2 of the spec: interval 100 ticks,
`targetRPM = 3000`, `errorSum = 0` before the tick. -/
def scenario2State : State :=
  { initState with fan_control_time_interval := 100, targetRPM := 3000 }

/-- Shared evaluation of scenario 2: the tick computes measured speed 3000,
error 0, updated error sum 0 and pre-clamp output 0. -/
lemma scenario2_eval :
    tickError scenario2State = 0 ∧ tickErrorSum scenario2State = 0 ∧
    preOutput scenario2State = 0 := by
  have h1 : tickError scenario2State = 0 := by decide
  have h2 : tickErrorSum scenario2State = 0 := by decide
  have ht : Ta scenario2State.fan_control_time_interval = 0 := by decide
  refine ⟨h1, h2, ?_⟩
  unfold preOutput
  rw [h1, h2, ht]
  norm_num

/-- C1: the claim demands the pre-clamp output to use the real-valued
quotient `interval / tickFrequency` (0.01 for interval 100).  The source
(fan_control.c line 387) performs an unsigned INTEGER division, so the
sampling factor is 0 for every interval below 10000 and the integral term is
dropped: at interval 100, target 6000, the code computes 2940 while the
claimed formula gives 3003. -/
theorem c1_samplingPeriod_is_integer_division :
    Ta 100 = 0 ∧ spec_samplingPeriod 100 = 1 / 100 ∧
    preOutput windupState = 2940 ∧ spec_preOutput windupState = 3003 ∧
    preOutput windupState ≠ spec_preOutput windupState := by
  have h1 : tickError windupState = 3000 := by decide
  have h2 : tickErrorSum windupState = 3000 := by decide
  have ht : Ta 100 = 0 := by decide
  have hint : windupState.fan_control_time_interval = 100 := rfl
  have hs : spec_samplingPeriod 100 = 1 / 100 := by
    norm_num [spec_samplingPeriod, frequency]
  have hpre : preOutput windupState = 2940 := by
    unfold preOutput
    rw [h1, h2, hint, ht]
    norm_num [Kp]
  have hspec : spec_preOutput windupState = 3003 := by
    unfold spec_preOutput
    rw [h1, h2, hint, hs]
    norm_num [Kp, Ki]
  exact ⟨ht, hs, hpre, hspec, by rw [hpre, hspec]; norm_num⟩

/-- C2: the source has no `interval == 0` guard.  The model (whose total
division mirrors the Cortex-M `udiv`, returning 0; in C the division is
undefined behaviour) shows the tick at interval 0 executes the whole
computation: the speed is recomputed, the output saturates at 199, an
actuation write of 199 occurs, and the state is NOT left unchanged. -/
theorem c2_zero_interval_tick_executes :
    degenState.fan_control_time_interval = 0 ∧
    measuredSpeed 0 = 0 ∧
    (regulateFanSpeed degenState).output = 199 ∧
    (regulateFanSpeed degenState).tim3_compare = 199 ∧
    regulateFanSpeed degenState ≠ degenState := by
  have h1 : tickError degenState = 3000 := by decide
  have h2 : tickErrorSum degenState = 3000 := by decide
  have ht : Ta degenState.fan_control_time_interval = 0 := by decide
  have hpre : preOutput degenState = 2940 := by
    unfold preOutput
    rw [h1, h2, ht]
    norm_num [Kp]
  have hgt : (MAX_PWM : ℚ) < preOutput degenState := by
    rw [hpre]; norm_num [MAX_PWM]
  have hout : (regulateFanSpeed degenState).output = 199 := by
    simp only [regulateFanSpeed]
    rw [if_pos hgt]
    norm_num [MAX_PWM]
  have hcmp : (regulateFanSpeed degenState).tim3_compare = 199 := by
    simp only [regulateFanSpeed]
    rw [if_pos hgt]
    decide
  refine ⟨rfl, by decide, hout, hcmp, ?_⟩
  intro heq
  have hpr := congrArg State.output heq
  rw [hout] at hpr
  have h0 : degenState.output = 0 := rfl
  rw [h0] at hpr
  norm_num at hpr

/-- C3 counterexample: at the claimed input (interval 100, tickFrequency
10000, targetSpeed 3000, integralSum 0) the code yields error 0 — not 200 —
and the emitted output is 15 (clamped up to `MIN_PWM`), not 199: the
measured speed at interval 100 is 3000, not the supposed 2800, and the
truncated sampling factor kills the integral term. -/
theorem c3_scenario2_counterexample :
    tickError scenario2State = 0 ∧ tickError scenario2State ≠ 200 ∧
    (regulateFanSpeed scenario2State).output = 15 ∧
    (regulateFanSpeed scenario2State).output ≠ 199 := by
  obtain ⟨h1, h2, hpre⟩ := scenario2_eval
  have hn1 : ¬ ((MAX_PWM : ℚ) < preOutput scenario2State) := by
    rw [hpre]; norm_num [MAX_PWM]
  have hlt : preOutput scenario2State < (MIN_PWM : ℚ) := by
    rw [hpre]; norm_num [MIN_PWM]
  have hout : (regulateFanSpeed scenario2State).output = 15 := by
    simp only [regulateFanSpeed]
    rw [if_neg hn1, if_pos hlt]
    norm_num [MIN_PWM]
  exact ⟨h1, by rw [h1]; norm_num, hout, by rw [hout]; norm_num⟩

/-- C3 amended: for the single tick with interval = 100, tickFrequency =
10000, targetSpeed = 3000 and integralSum = 0 before the tick, the code
computes measuredSpeed = 3000, error = 0, accumulates integralSum to 0,
obtains pre-clamp output 0, clamps the emitted output up to MIN_DUTY = 15,
and leaves integralSum at 0 after the tick (min-clamp anti-windup). -/
theorem c3_scenario2_amended :
    measuredSpeed 100 = 3000 ∧ tickError scenario2State = 0 ∧
    tickErrorSum scenario2State = 0 ∧ preOutput scenario2State = 0 ∧
    (regulateFanSpeed scenario2State).output = 15 ∧
    (regulateFanSpeed scenario2State).tim3_compare = 15 ∧
    (regulateFanSpeed scenario2State).errorSum = 0 := by
  obtain ⟨h1, h2, hpre⟩ := scenario2_eval
  have hn1 : ¬ ((MAX_PWM : ℚ) < preOutput scenario2State) := by
    rw [hpre]; norm_num [MAX_PWM]
  have hlt : preOutput scenario2State < (MIN_PWM : ℚ) := by
    rw [hpre]; norm_num [MIN_PWM]
  refine ⟨by decide, h1, h2, hpre, ?_, ?_, ?_⟩
  · simp only [regulateFanSpeed]
    rw [if_neg hn1, if_pos hlt]
    norm_num [MIN_PWM]
  · simp only [regulateFanSpeed]
    rw [if_neg hn1, if_pos hlt]
    decide
  · simp only [regulateFanSpeed]
    rw [if_neg hn1, if_pos hlt]
    simp [h1, scenario2State, initState]

/-- C4: in every tick with interval > 0, a clamped output restores
`errorSum` to its pre-tick value, an unclamped output leaves
`errorSum + error`; and no other operation of the module (a non-regulating
edge, `fan_control_set_rpm`) mutates `errorSum`. -/
theorem c4_anti_windup_integral (s : State) (e a : ℕ)
    (h : 0 < s.fan_control_time_interval) :
    (clamped s → (regulateFanSpeed s).errorSum = s.errorSum) ∧
    (¬ clamped s → (regulateFanSpeed s).errorSum = s.errorSum + tickError s) ∧
    ((onEdge s e).2 = false → (onEdge s e).1.errorSum = s.errorSum) ∧
    (fan_control_set_rpm s a).errorSum = s.errorSum := by
  refine ⟨?_, ?_, ?_, rfl⟩
  · intro hc
    simp only [regulateFanSpeed]
    split_ifs with h1 h2
    · simp
    · simp
    · exact absurd hc (by simp [clamped, h1, h2])
  · intro hc
    have h1 : ¬ ((MAX_PWM : ℚ) < preOutput s) := fun hx => hc (Or.inl hx)
    have h2 : ¬ (preOutput s < (MIN_PWM : ℚ)) := fun hx => hc (Or.inr hx)
    simp only [regulateFanSpeed]
    rw [if_neg h1, if_neg h2]
  · intro hsnd
    rw [onEdge_snd] at hsnd
    unfold onEdge
    simp [hsnd]

/-- C4 witness: the saturating tick of `windupState` (interval 100, target
6000) satisfies the hypothesis and the conclusion; its error sum is restored
to 0. -/
theorem c4_anti_windup_integral_witness :
    0 < windupState.fan_control_time_interval ∧
    ((clamped windupState →
        (regulateFanSpeed windupState).errorSum = windupState.errorSum) ∧
     (¬ clamped windupState →
        (regulateFanSpeed windupState).errorSum =
          windupState.errorSum + tickError windupState) ∧
     ((onEdge windupState 0).2 = false →
        (onEdge windupState 0).1.errorSum = windupState.errorSum) ∧
     (fan_control_set_rpm windupState 0).errorSum = windupState.errorSum) :=
  ⟨by decide, c4_anti_windup_integral windupState 0 0 (by decide)⟩

/-- C5: after every tick the clamped output lies in
`[MIN_DUTY, MAX_DUTY] = [15, 199]`, and so does the compare value the
regulator writes to the PWM channel — both for a bare tick and for the tick
run by a measurement-completing edge. -/
theorem c5_output_bounds (s : State) (e : ℕ) :
    ((MIN_PWM : ℚ) ≤ (regulateFanSpeed s).output ∧
     (regulateFanSpeed s).output ≤ (MAX_PWM : ℚ)) ∧
    (MIN_PWM ≤ (regulateFanSpeed s).tim3_compare ∧
     (regulateFanSpeed s).tim3_compare ≤ MAX_PWM) ∧
    ((onEdge s e).2 = true →
      ((MIN_PWM : ℚ) ≤ (onEdge s e).1.output ∧
       (onEdge s e).1.output ≤ (MAX_PWM : ℚ) ∧
       MIN_PWM ≤ (onEdge s e).1.tim3_compare ∧
       (onEdge s e).1.tim3_compare ≤ MAX_PWM)) := by
  obtain ⟨b1, b2, b3, b4⟩ := regulateFanSpeed_bounds s
  refine ⟨⟨b1, b2⟩, ⟨b3, b4⟩, ?_⟩
  intro hsnd
  rw [onEdge_snd] at hsnd
  unfold onEdge
  simp only [timerAdvance_fan_start_flag, hsnd, Bool.true_eq_false, if_false]
  exact ⟨(regulateFanSpeed_bounds _).1, (regulateFanSpeed_bounds _).2.1,
         (regulateFanSpeed_bounds _).2.2.1, (regulateFanSpeed_bounds _).2.2.2⟩

/-- A state in the middle of a measurement: start flag set, TIM2 running. -/
def measState : State := { initState with fan_start_flag := true, tim2_running := true }

/-- C5 witness: instantiation at a measuring state (start flag set, counter
running), edge elapsed 100 ticks. -/
theorem c5_output_bounds_witness :
    ((MIN_PWM : ℚ) ≤ (regulateFanSpeed measState).output ∧
     (regulateFanSpeed measState).output ≤ (MAX_PWM : ℚ)) ∧
    (MIN_PWM ≤ (regulateFanSpeed measState).tim3_compare ∧
     (regulateFanSpeed measState).tim3_compare ≤ MAX_PWM) ∧
    ((onEdge measState 100).2 = true →
      ((MIN_PWM : ℚ) ≤ (onEdge measState 100).1.output ∧
       (onEdge measState 100).1.output ≤ (MAX_PWM : ℚ) ∧
       MIN_PWM ≤ (onEdge measState 100).1.tim3_compare ∧
       (onEdge measState 100).1.tim3_compare ≤ MAX_PWM)) :=
  c5_output_bounds measState 100

/-- C6: for every positive interval (any value reachable from the 32-bit
counter without overflowing the doubling), the tick computes
`(tickFrequency / (interval * 2)) * 60` with truncating unsigned division —
the quotient is truncated before the multiplication by 60 — and at
interval 100 with tickFrequency 10000 the result is exactly 3000. -/
theorem c6_measured_speed_formula (i : ℕ) (h1 : 0 < i) (h2 : i < 2 ^ 31) :
    measuredSpeed i = (frequency / (i * 2)) * 60 ∧ measuredSpeed 100 = 3000 := by
  constructor
  · have h2e : i < 2147483648 := by norm_num at h2; exact h2
    have hm : (i * 2) % U32 = i * 2 := by
      apply Nat.mod_eq_of_lt
      unfold U32
      norm_num
      omega
    unfold measuredSpeed
    rw [hm]
    exact Nat.mod_eq_of_lt (lt_of_le_of_lt
      (Nat.mul_le_mul_right 60 (Nat.div_le_self frequency (i * 2)))
      (by norm_num [frequency, U32]))
  · decide

/-- C6 witness: interval 100 gives measured speed (10000 / 200) * 60 = 3000. -/
theorem c6_measured_speed_formula_witness :
    0 < 100 ∧ (100 : ℕ) < 2 ^ 31 ∧
    (measuredSpeed 100 = (frequency / (100 * 2)) * 60 ∧ measuredSpeed 100 = 3000) :=
  ⟨by norm_num, by norm_num, c6_measured_speed_formula 100 (by norm_num) (by norm_num)⟩

/-- C7: edges strictly alternate.  An edge in the idle state starts the
counter, moves to measuring and emits nothing; an edge in the measuring
state stops the counter, regulates once, resets the counter to zero and
returns to idle.  Hence after any sequence of edges from the initial state
the capture state is measuring exactly for odd edge counts and the
regulator has run exactly floor(n / 2) times. -/
theorem c7_capture_alternation (s : State) (e : ℕ) (es : List ℕ) :
    (s.fan_start_flag = false →
      (onEdge s e).2 = false ∧ (onEdge s e).1.fan_start_flag = true ∧
      (onEdge s e).1.tim2_running = true) ∧
    (s.fan_start_flag = true →
      (onEdge s e).2 = true ∧ (onEdge s e).1.fan_start_flag = false ∧
      (onEdge s e).1.tim2_running = false ∧ (onEdge s e).1.tim2_counter = 0) ∧
    ((runEdges initState es).1.fan_start_flag = true ↔ es.length % 2 = 1) ∧
    (runEdges initState es).2 = es.length / 2 := by
  refine ⟨?_, ?_, ?_, ?_⟩
  · intro hf
    unfold onEdge
    simp [hf]
  · intro hf
    unfold onEdge
    simp [hf]
  · rw [runEdges_flag]
    have h0 : initState.fan_start_flag = false := rfl
    rw [h0]
    by_cases hp : es.length % 2 = 1 <;> simp [hp]
  · rw [runEdges_count]
    have h0 : initState.fan_start_flag = false := rfl
    rw [h0]
    simp

/-- C7 witness: from the initial state, a first edge starts a measurement
without regulating and a two-edge sequence regulates exactly once. -/
theorem c7_capture_alternation_witness :
    (initState.fan_start_flag = false →
      (onEdge initState 5).2 = false ∧ (onEdge initState 5).1.fan_start_flag = true ∧
      (onEdge initState 5).1.tim2_running = true) ∧
    (initState.fan_start_flag = true →
      (onEdge initState 5).2 = true ∧ (onEdge initState 5).1.fan_start_flag = false ∧
      (onEdge initState 5).1.tim2_running = false ∧
      (onEdge initState 5).1.tim2_counter = 0) ∧
    ((runEdges initState [5, 7]).1.fan_start_flag = true ↔ [5, 7].length % 2 = 1) ∧
    (runEdges initState [5, 7]).2 = [5, 7].length / 2 :=
  c7_capture_alternation initState 5 [5, 7]

/-- C8: the sampling factor is the truncated unsigned quotient
`interval / tickFrequency`, so for every tick with 0 < interval < 10000 it
is 0 and the pre-clamp output reduces exactly to the proportional term
`Kp * error`. -/
theorem c8_integral_term_vanishes (s : State)
    (h1 : 0 < s.fan_control_time_interval)
    (h2 : s.fan_control_time_interval < frequency) :
    Ta s.fan_control_time_interval = 0 ∧
    preOutput s = Kp * (tickError s : ℚ) := by
  have hta : Ta s.fan_control_time_interval = 0 := by
    unfold Ta
    rw [Nat.div_eq_of_lt h2]
    norm_num
  refine ⟨hta, ?_⟩
  unfold preOutput
  rw [hta]
  ring

/-- C8 witness: at interval 100 (< 10000) the sampling factor is 0 and the
pre-clamp output is the pure proportional term. -/
theorem c8_integral_term_vanishes_witness :
    0 < windupState.fan_control_time_interval ∧
    windupState.fan_control_time_interval < frequency ∧
    (Ta windupState.fan_control_time_interval = 0 ∧
     preOutput windupState = Kp * (tickError windupState : ℚ)) :=
  ⟨by decide, by decide, c8_integral_term_vanishes windupState (by decide) (by decide)⟩

/-- C9: after `fan_control_init()` the PWM channel runs with compare value
0, which is below MIN_DUTY = 15; the duty is still 0 after the first
tachometer edge (which only starts the measurement), and the second edge is
the first one that invokes the regulator.  The output-bound invariant is
thus violated between initialization and the first tick. -/
theorem c9_init_duty_below_min (e1 e2 : ℕ) :
    initState.tim3_compare = 0 ∧ initState.tim3_compare < MIN_PWM ∧
    (onEdge initState e1).2 = false ∧
    (onEdge initState e1).1.tim3_compare = 0 ∧
    (onEdge (onEdge initState e1).1 e2).2 = true := by
  refine ⟨rfl, by norm_num [initState, MIN_PWM], ?_, ?_, ?_⟩
  · rw [onEdge_snd]; rfl
  · unfold onEdge
    simp [initState, timerAdvance]
  · rw [onEdge_snd, onEdge_flag]
    rfl

/-- C10: for every potentiometer average a ≤ 4095, the product a * 4500
stays below 2^32 (no wrap), the target RPM equals the exact quotient
(a * 4500) / 4095, and is therefore at most 4500. -/
theorem c10_set_rpm_range (s : State) (a : ℕ) (h : a ≤ 4095) :
    a * 4500 < U32 ∧
    (fan_control_set_rpm s a).targetRPM = (a * 4500) / 4095 ∧
    (fan_control_set_rpm s a).targetRPM ≤ 4500 := by
  have hle : a * 4500 ≤ 4095 * 4500 := Nat.mul_le_mul_right 4500 h
  have hlt : a * 4500 < U32 := lt_of_le_of_lt hle (by norm_num [U32])
  have hmod : (a * 4500) % U32 = a * 4500 := Nat.mod_eq_of_lt hlt
  have htgt : (fan_control_set_rpm s a).targetRPM = ((a * 4500) % U32) / 4095 := rfl
  refine ⟨hlt, ?_, ?_⟩
  · rw [htgt, hmod]
  · rw [htgt, hmod]
    exact le_trans (Nat.div_le_div_right hle) (by norm_num)

/-- C10 witness: the maximal average 4095 maps to exactly 4500 RPM. -/
theorem c10_set_rpm_range_witness :
    (4095 : ℕ) ≤ 4095 ∧
    (4095 * 4500 < U32 ∧
     (fan_control_set_rpm initState 4095).targetRPM = (4095 * 4500) / 4095 ∧
     (fan_control_set_rpm initState 4095).targetRPM ≤ 4500) :=
  ⟨le_refl _, c10_set_rpm_range initState 4095 (le_refl _)⟩


end FanControl
